import Mathlib

/-!
Verification of the qBraid telemetry pipeline (client side).

Shallow embedding of the TypeScript sources:
  packages/opencode/src/telemetry/uploader.ts   (TelemetryUploader)
  packages/opencode/src/telemetry/consent.ts    (getConsentStatus and helpers)
  packages/opencode/src/telemetry/sanitizer.ts  (redactSecrets, truncateContent, ...)
  packages/opencode/src/telemetry/signals.ts    (SignalTracker)
  packages/opencode/src/telemetry/collector.ts  (TelemetryCollector)

Conventions used throughout:
* Network I/O is modelled by an oracle `Nat → FetchResult β` giving, per attempt
  index, the outcome the `fetch` call would produce (an HTTP response with a
  numeric status and an already-parsed body, or a rejection).
* JavaScript class state becomes an explicit state record; each method becomes a
  function from state (plus arguments and oracles) to state (plus observables).
* Timers (`setTimeout` flush timers) and log statements have no observable
  effect on the data claims considered here and are not modelled.
-/

set_option autoImplicit false

namespace Telemetry

/-- Outcome of one `fetch(url, ...)` call: either a resolved HTTP response with
status code and already-parsed JSON body, or a rejection (network-level
failure).  `isFetchTypeError` records whether the thrown error is a `TypeError`
whose message contains `"fetch"` (the test `makeRequest` performs before
calling `setOnline(false)`). -/
inductive FetchResult (β : Type) where
  | http (status : Nat) (body : β)
  | netError (isFetchTypeError : Bool)
  deriving DecidableEq

/-- `response.ok`: status in the inclusive range 200–299. -/
def responseOk (status : Nat) : Bool := 200 ≤ status && status < 300

/-- The 4xx test in `makeRequest`: `response.status >= 400 && response.status < 500`. -/
def isClientError (status : Nat) : Bool := 400 ≤ status && status < 500

/-- `MAX_RETRY_ATTEMPTS` from uploader.ts. -/
def MAX_RETRY_ATTEMPTS : Nat := 3

/-- `RETRY_BACKOFF_MS` from uploader.ts. -/
def RETRY_BACKOFF_MS : Nat := 1000

/-- `DEFAULT_BATCH_SIZE` from uploader.ts. -/
def DEFAULT_BATCH_SIZE : Nat := 5

/-- What one call of `TelemetryUploader.makeRequest` produces:
the resolved value (`some body` on a 2xx response, `none` otherwise — the
function resolves `null` on every failure path instead of rejecting), the
number of `fetch` attempts performed, the list of backoff sleeps (in ms)
awaited between attempts, and whether `setOnline(false)` was triggered by a
network-level `TypeError` mentioning fetch. -/
structure ReqResult (β : Type) where
  result : Option β
  attempts : Nat
  delays : List Nat
  wentOffline : Bool
  deriving DecidableEq

/-- The retry loop of `makeRequest`, starting at attempt index `attempt` with
`fuel` loop iterations remaining (`fuel = MAX_RETRY_ATTEMPTS - attempt`).
Mirrors uploader.ts lines 194–233: a 2xx response returns the parsed body; a
4xx response returns `null` without retrying; any other response status and
any rejection of `fetch` fall through to the next iteration, sleeping
`RETRY_BACKOFF_MS * 2 ^ attempt` first when `attempt < MAX_RETRY_ATTEMPTS - 1`;
an exhausted loop returns `null`. -/
def makeRequestFrom {β : Type} (oracle : Nat → FetchResult β) : Nat → Nat → ReqResult β
  | _, 0 => ⟨none, 0, [], false⟩
  | attempt, fuel + 1 =>
    match oracle attempt with
    | .http status body =>
      if responseOk status then ⟨some body, 1, [], false⟩
      else if isClientError status then ⟨none, 1, [], false⟩
      else
        let rest := makeRequestFrom oracle (attempt + 1) fuel
        ⟨rest.result, rest.attempts + 1,
          (if attempt < MAX_RETRY_ATTEMPTS - 1 then [RETRY_BACKOFF_MS * 2 ^ attempt] else [])
            ++ rest.delays,
          rest.wentOffline⟩
    | .netError isFetch =>
        let rest := makeRequestFrom oracle (attempt + 1) fuel
        ⟨rest.result, rest.attempts + 1,
          (if attempt < MAX_RETRY_ATTEMPTS - 1 then [RETRY_BACKOFF_MS * 2 ^ attempt] else [])
            ++ rest.delays,
          isFetch || rest.wentOffline⟩

/-- `TelemetryUploader.makeRequest` (uploader.ts lines 191–234). -/
def makeRequest {β : Type} (oracle : Nat → FetchResult β) : ReqResult β :=
  makeRequestFrom oracle 0 MAX_RETRY_ATTEMPTS

/-- The mutable state of a `TelemetryUploader` instance, over an arbitrary turn
type `α`.  `batchSize` is the relevant piece of `this.config`; `endpoint`,
`authToken` and `flushIntervalMs` only feed the HTTP layer / flush timer and
are absorbed into the oracle / not modelled.  `flushTimer` is not modelled. -/
structure UploaderState (α : Type) where
  pendingTurns : List α
  sessionDocId : Option String
  isOnline : Bool
  offlineQueue : List α
  batchSize : Nat
  deriving DecidableEq

/-- Result of one `flush()` call: the post state, whether a `POST .../turns`
request was attempted, the value `makeRequest` resolved with (when a request
was made), and the batch of turns included in that request. -/
structure FlushResult (α : Type) where
  state : UploaderState α
  requestMade : Bool
  sendResult : Option Unit
  sentTurns : List α
  deriving DecidableEq

/-- `TelemetryUploader.flush` (uploader.ts lines 97–132).  The `catch` branch
of the source (which would prepend `turnsToSend` back onto `pendingTurns`) is
unreachable: the only awaited expression in the `try` block is
`makeRequest`, which resolves with `null` on every failure path instead of
rejecting, so the embedding has no corresponding case.  `makeRequest` may
call `setOnline(false)` internally (network-level fetch error); going offline
never triggers the drain branch of `setOnline`, so its only effect is the
`isOnline` flag. -/
def flush {α : Type} (oracle : Nat → FetchResult Unit) (st : UploaderState α) : FlushResult α :=
  if st.pendingTurns.isEmpty then ⟨st, false, none, []⟩
  else
    match st.sessionDocId with
    | none => ⟨st, false, none, []⟩
    | some _ =>
      if !st.isOnline then
        ⟨{ st with offlineQueue := st.offlineQueue ++ st.pendingTurns, pendingTurns := [] },
          false, none, []⟩
      else
        let turnsToSend := st.pendingTurns
        let st1 := { st with pendingTurns := [] }
        let r := makeRequest oracle
        ⟨{ st1 with isOnline := if r.wentOffline then false else st1.isOnline },
          true, r.result, turnsToSend⟩

/-- `TelemetryUploader.addTurn` (uploader.ts lines 82–92).  Returns the post
state together with whether the size-triggered flush attempted a network
request.  The timer armed in the `else` branch is not modelled. -/
def addTurn {α : Type} (oracle : Nat → FetchResult Unit) (st : UploaderState α) (turn : α) :
    UploaderState α × Bool :=
  let st1 := { st with pendingTurns := st.pendingTurns ++ [turn] }
  if st1.batchSize ≤ st1.pendingTurns.length then
    let r := flush oracle st1
    (r.state, r.requestMade)
  else
    (st1, false)

/-- A sequence of `addTurn` calls; the accumulated boolean records whether any
of the size-triggered flushes attempted a network request. -/
def addTurnsAcc {α : Type} (oracle : Nat → FetchResult Unit)
    (acc : UploaderState α × Bool) (ts : List α) : UploaderState α × Bool :=
  ts.foldl (fun acc t =>
    let r := addTurn oracle acc.1 t
    (r.1, acc.2 || r.2)) acc

/-- `TelemetryUploader.setOnline` (uploader.ts lines 174–186).  A transition to
online while offline data is queued moves the whole offline queue onto the end
of `pendingTurns` and invokes `flush`. -/
def setOnline {α : Type} (oracle : Nat → FetchResult Unit) (st : UploaderState α)
    (online : Bool) : FlushResult α :=
  let wasOffline := !st.isOnline
  let st1 := { st with isOnline := online }
  if online && wasOffline && !st1.offlineQueue.isEmpty then
    let st2 :=
      { st1 with pendingTurns := st1.pendingTurns ++ st1.offlineQueue, offlineQueue := [] }
    flush oracle st2
  else
    ⟨st1, false, none, []⟩

/-- `TelemetryUploader.updateSession` (uploader.ts lines 137–149): a best-effort
PATCH; no queue state is touched.  Returns whether a request was made.  As in
`flush`, `makeRequest` resolves instead of rejecting, so the `catch` is dead. -/
def updateSession {α : Type} (oracle : Nat → FetchResult Unit) (st : UploaderState α) :
    UploaderState α × Bool :=
  match st.sessionDocId with
  | none => (st, false)
  | some _ =>
    let r := makeRequest oracle
    ({ st with isOnline := if r.wentOffline then false else st.isOnline }, true)

/-- `TelemetryUploader.shutdown` (uploader.ts lines 154–169): flush pending
turns, then (if online) move the offline queue into `pendingTurns` — the source
overwrites `pendingTurns` with the offline turns — and flush again. -/
def shutdown {α : Type} (o1 o2 : Nat → FetchResult Unit) (st : UploaderState α) :
    UploaderState α :=
  let st1 := if !st.pendingTurns.isEmpty then (flush o1 st).state else st
  if !st1.offlineQueue.isEmpty && st1.isOnline then
    let st2 := { st1 with pendingTurns := st1.offlineQueue, offlineQueue := [] }
    (flush o2 st2).state
  else
    st1

/-! ### Consent resolver (consent.ts) -/

/-- `UserTier` from types.ts. -/
inductive UserTier where
  | free
  | standard
  | pro
  deriving DecidableEq

/-- `DataLevel` from types.ts (`"full" | "metrics-only"`). -/
inductive DataLevel where
  | full
  | metricsOnly
  deriving DecidableEq

/-- `ConsentStatus` from types.ts. -/
structure ConsentStatus where
  userId : String
  tier : UserTier
  telemetryEnabled : Bool
  dataLevel : DataLevel
  deriving DecidableEq

/-- The `qbraid.telemetry.enabled` configuration value as tested by consent.ts:
the code only distinguishes the literal `true`, the literal `false`, and
everything else (`"tier-default"` or the key being absent). -/
inductive EnabledSetting where
  | explicitTrue
  | explicitFalse
  | tierDefault
  deriving DecidableEq

/-- The slice of the configuration object consent.ts reads
(`config.qbraid?.telemetry`); an absent telemetry section behaves as
`⟨tierDefault, none⟩`.  The `endpoint` key only selects the URL handed to
`fetch` and is absorbed into the service oracle. -/
structure TelemetryConfig where
  enabled : EnabledSetting
  dataLevel : Option DataLevel
  deriving DecidableEq

/-- The module-level consent cache of consent.ts
(`cachedConsent` / `cacheExpiry`). -/
structure ConsentCache where
  cachedConsent : Option ConsentStatus
  cacheExpiry : Nat
  deriving DecidableEq

/-- `CACHE_TTL_MS` from consent.ts. -/
def CACHE_TTL_MS : Nat := 5 * 60 * 1000

/-- `fetchConsentFromService` (consent.ts lines 32–56): a single `fetch` of
`GET /api/v1/consent`; a non-ok response or a rejected fetch both yield `null`
(the whole body is wrapped in try/catch). -/
def fetchConsentFromService (r : FetchResult ConsentStatus) : Option ConsentStatus :=
  match r with
  | .http status body => if responseOk status then some body else none
  | .netError _ => none

/-- `getDefaultConsent` (consent.ts lines 61–87): tier is assumed `free`;
telemetry is enabled when the config says `true`, disabled when it says
`false`, and otherwise follows the tier default (`tier === "free"`); data
level defaults to `full`. -/
def getDefaultConsent (cfg : TelemetryConfig) (userId : String) : ConsentStatus :=
  let tier : UserTier := .free
  let telemetryEnabled : Bool :=
    match cfg.enabled with
    | .explicitTrue => true
    | .explicitFalse => false
    | .tierDefault => decide (tier = .free)
  let dataLevel : DataLevel := cfg.dataLevel.getD .full
  ⟨userId, tier, telemetryEnabled, dataLevel⟩

/-- The local-override application of `getConsentStatus` (consent.ts lines
128–134): an explicit `enabled === true` forces `telemetryEnabled`, and a
configured data level replaces the answer of the service. -/
def applyLocalOverrides (cfg : TelemetryConfig) (sc : ConsentStatus) : ConsentStatus :=
  let sc1 := if cfg.enabled = .explicitTrue then { sc with telemetryEnabled := true } else sc
  match cfg.dataLevel with
  | some dl => { sc1 with dataLevel := dl }
  | none => sc1

/-- What one `getConsentStatus` call produces: the resolved status, the cache
cell afterwards, and whether the consent endpoint was actually queried. -/
structure ConsentResult where
  status : ConsentStatus
  cache : ConsentCache
  fetchAttempted : Bool
  deriving DecidableEq

/-- `getConsentStatus` (consent.ts lines 98–146).  `now` stands for
`Date.now()`; `service` is the outcome the consent endpoint would produce if
queried.  Resolution order as in the source: explicit config disable first
(tier assumed `standard`, data level forced to `metrics-only`); then, given an
auth token, a non-expired cache hit; then the service (applying the local
`enabled === true` and `dataLevel` overrides on top of its answer and caching
for `CACHE_TTL_MS`); finally the config-based defaults. -/
def getConsentStatus (cfg : TelemetryConfig) (authToken : Option String)
    (cache : ConsentCache) (now : Nat) (service : FetchResult ConsentStatus) : ConsentResult :=
  let userId := "unknown"
  if cfg.enabled = .explicitFalse then
    ⟨⟨userId, .standard, false, .metricsOnly⟩, cache, false⟩
  else
    let afterFetch : ConsentResult :=
      match fetchConsentFromService service with
      | some sc =>
        let sc2 := applyLocalOverrides cfg sc
        ⟨sc2, ⟨some sc2, now + CACHE_TTL_MS⟩, true⟩
      | none => ⟨getDefaultConsent cfg userId, cache, true⟩
    match authToken with
    | none => ⟨getDefaultConsent cfg userId, cache, false⟩
    | some _ =>
      match cache.cachedConsent with
      | some c => if now < cache.cacheExpiry then ⟨c, cache, false⟩ else afterFetch
      | none => afterFetch

/-! ### Sanitizer, truncation part (sanitizer.ts) -/

/-- `MAX_CONTENT_LENGTH` from sanitizer.ts. -/
def MAX_CONTENT_LENGTH : Nat := 50000

/-- The marker `truncateContent` appends.  `digestHex` abstracts
`crypto.createHash("sha256")....digest("hex")` — a fixed deterministic
function of the full content; the marker embeds its first 8 hex characters. -/
def truncMarker (digestHex : String → String) (content : String) : String :=
  "\n\n[TRUNCATED - Original length: " ++ toString content.length ++ " bytes, hash: "
    ++ String.mk ((digestHex content).data.take 8) ++ "]"

/-- `truncateContent` (sanitizer.ts lines 110–119): content at or under the
limit passes through unchanged; longer content is cut at `maxLength`
(`substring(0, maxLength)`, modelled character-wise) and the marker with the
original length and truncated digest is appended. -/
def truncateContent (digestHex : String → String) (content : String)
    (maxLength : Nat := MAX_CONTENT_LENGTH) : String :=
  if content.length ≤ maxLength then content
  else String.mk (content.data.take maxLength) ++ truncMarker digestHex content

/-! ### SignalTracker (signals.ts) -/

/-- `SessionState` from types.ts (`"completed" | "abandoned" | "error"`). -/
inductive SessionState where
  | completed
  | abandoned
  | error
  deriving DecidableEq

/-- `SessionSignals` from types.ts. -/
structure SessionSignals where
  retryCount : Nat
  compactionCount : Nat
  abandonedMidTurn : Bool
  finalState : SessionState
  errorTypes : Option (List String)
  deriving DecidableEq

/-- The state of a `SignalTracker` (signals.ts).  `errorTypes` models the JS
`Set<string>`: duplicate inserts are dropped, insertion order is kept (which
is what `Array.from` reads back).  The timing fields `turnStartTime` and
`lastActivityTime` only feed `getIdleTimeMs` and are not modelled. -/
structure SignalTracker where
  retryCount : Nat
  compactionCount : Nat
  errorTypes : List String
  inProgressTurn : Bool
  deriving DecidableEq

/-- A freshly constructed (or `reset`) tracker. -/
def SignalTracker.reset : SignalTracker := ⟨0, 0, [], false⟩

/-- `Set.add` on the model of `errorTypes`. -/
def addErrorType (l : List String) (k : String) : List String :=
  if k ∈ l then l else l ++ [k]

/-- `SignalTracker.recordRetry`. -/
def SignalTracker.recordRetry (t : SignalTracker) : SignalTracker :=
  { t with retryCount := t.retryCount + 1 }

/-- `SignalTracker.recordCompaction`. -/
def SignalTracker.recordCompaction (t : SignalTracker) : SignalTracker :=
  { t with compactionCount := t.compactionCount + 1 }

/-- `SignalTracker.recordError` (signals.ts lines 485–487 of integration bundle):
`this.errorTypes.add(errorType)`. -/
def SignalTracker.recordError (t : SignalTracker) (errorType : String) : SignalTracker :=
  { t with errorTypes := addErrorType t.errorTypes errorType }

/-- `SignalTracker.startTurn`. -/
def SignalTracker.startTurn (t : SignalTracker) : SignalTracker :=
  { t with inProgressTurn := true }

/-- `SignalTracker.endTurn`. -/
def SignalTracker.endTurn (t : SignalTracker) : SignalTracker :=
  { t with inProgressTurn := false }

/-- `SignalTracker.isAbandonedMidTurn`. -/
def SignalTracker.isAbandonedMidTurn (t : SignalTracker) : Bool :=
  t.inProgressTurn

/-- `SignalTracker.determineFinalState` (signals.ts): `error` when
`hasErrors || this.errorTypes.size > 0`; else `abandoned` when still mid-turn
or not explicitly ended; else `completed`. -/
def SignalTracker.determineFinalState (t : SignalTracker) (hasErrors wasExplicitlyEnded : Bool) :
    SessionState :=
  if hasErrors || decide (0 < t.errorTypes.length) then .error
  else if t.isAbandonedMidTurn || !wasExplicitlyEnded then .abandoned
  else .completed

/-- `SignalTracker.getSignals` (signals.ts lines 540–548); note the source
passes `hasErrors := false` to `determineFinalState`, and reads `errorTypes`
back as an array only when non-empty. -/
def SignalTracker.getSignals (t : SignalTracker) (wasExplicitlyEnded : Bool) : SessionSignals :=
  { retryCount := t.retryCount
    compactionCount := t.compactionCount
    abandonedMidTurn := t.isAbandonedMidTurn
    finalState := t.determineFinalState false wasExplicitlyEnded
    errorTypes := if 0 < t.errorTypes.length then some t.errorTypes else none }

/-- A recorded call against a `SignalTracker`, for quantifying over histories. -/
inductive TrackerOp where
  | startTurn
  | endTurn
  | recordRetry
  | recordCompaction
  | recordError (kind : String)
  deriving DecidableEq

/-- Apply one call. -/
def applyTrackerOp (t : SignalTracker) : TrackerOp → SignalTracker
  | .startTurn => t.startTurn
  | .endTurn => t.endTurn
  | .recordRetry => t.recordRetry
  | .recordCompaction => t.recordCompaction
  | .recordError k => t.recordError k

/-- Run a history of calls from a given tracker state. -/
def runTrackerFrom (t : SignalTracker) (ops : List TrackerOp) : SignalTracker :=
  ops.foldl applyTrackerOp t

/-- Run a history of calls from a fresh tracker. -/
def runTracker (ops : List TrackerOp) : SignalTracker :=
  runTrackerFrom SignalTracker.reset ops

/-- The error kinds a history records, in order, with duplicates. -/
def errorKinds (ops : List TrackerOp) : List String :=
  ops.filterMap fun op =>
    match op with
    | .recordError k => some k
    | _ => none

/-- First-occurrence deduplication — what the JS `Set` accumulates. -/
def dedupFirst (l : List String) : List String :=
  l.foldl addErrorType []

/-! ### Collector (collector.ts) -/

/-- `UserMessageData` from types.ts. -/
structure UserMessageData where
  content : String
  contentLength : Nat
  hasImages : Bool
  hasFiles : Bool
  deriving DecidableEq

/-- `AssistantMessageData` from types.ts. -/
structure AssistantMessageData where
  content : String
  contentLength : Nat
  modelId : String
  inputTokens : Nat
  outputTokens : Nat
  latencyMs : Nat
  deriving DecidableEq

/-- `ToolCallData` from types.ts. -/
structure ToolCallData where
  name : String
  isError : Bool
  durationMs : Nat
  inputSizeBytes : Option Nat
  outputSizeBytes : Option Nat
  errorType : Option String
  deriving DecidableEq

/-- `FileChangeData` from types.ts. -/
structure FileChangeData where
  pathHash : String
  extension : String
  additions : Nat
  deletions : Nat
  deriving DecidableEq

/-- A complete `TelemetryTurn` (types.ts): user and assistant payloads both
present.  `userEditedAfter` is never set by the collector and is omitted. -/
structure TelemetryTurn where
  turnIndex : Nat
  createdAt : String
  userMessage : UserMessageData
  assistantMessage : AssistantMessageData
  toolCalls : List ToolCallData
  fileChanges : Option (List FileChangeData)
  wasRetried : Bool
  deriving DecidableEq

/-- The collector's in-progress `Partial<TelemetryTurn>`: the fields
`recordUserMessage` initialises, with the assistant payload possibly absent. -/
structure PartialTurn where
  turnIndex : Nat
  createdAt : String
  userMessage : Option UserMessageData
  assistantMessage : Option AssistantMessageData
  toolCalls : List ToolCallData
  fileChanges : Option (List FileChangeData)
  wasRetried : Bool
  deriving DecidableEq

/-- `SessionMetrics` from types.ts.  `totalCost` is a number the collector
never updates; it is kept as a `Nat` field. -/
structure SessionMetrics where
  turnCount : Nat
  totalInputTokens : Nat
  totalOutputTokens : Nat
  totalCost : Nat
  toolCallCount : Nat
  toolErrorCount : Nat
  filesModified : Nat
  linesAdded : Nat
  linesDeleted : Nat
  deriving DecidableEq

/-- One entry of the `ModelUsage` map from types.ts. -/
structure ModelUsageEntry where
  turns : Nat
  inputTokens : Nat
  outputTokens : Nat
  deriving DecidableEq

/-- The `modelUsage[modelId]` update of `recordAssistantMessage`: create the
entry at zero when absent, then add one turn and the token counts.  The map
is modelled as an association list in insertion order. -/
def bumpModelUsage : List (String × ModelUsageEntry) → String → Nat → Nat →
    List (String × ModelUsageEntry)
  | [], modelId, it, ot => [(modelId, ⟨1, it, ot⟩)]
  | (k, e) :: rest, modelId, it, ot =>
    if k = modelId then
      (k, ⟨e.turns + 1, e.inputTokens + it, e.outputTokens + ot⟩) :: rest
    else
      (k, e) :: bumpModelUsage rest modelId it ot

/-- The collector's per-session state (`interface SessionState` in
collector.ts).  `startedAt` is kept in milliseconds (`Date` value);
`environment` and the identity strings are carried through untouched
(`environment` is elided — `detectEnvironment` reads process environment
variables and no claim observes it). -/
structure CollectorSessionState where
  sessionId : String
  userId : String
  organizationId : String
  startedAtMs : Nat
  metrics : SessionMetrics
  modelUsage : List (String × ModelUsageEntry)
  currentTurnIndex : Nat
  currentTurn : Option PartialTurn
  deriving DecidableEq

/-- The mutable fields of `TelemetryCollector`: the disabled/enabled flag, the
current session (single-writer), the signal tracker and the uploader.  The
sanitizer the collector builds at `initialize` time is passed to the recording
functions as a plain function `san : String → String`
(`this.sanitizer.sanitizeContent`); event-bus subscriptions are external glue
and are not modelled. -/
structure CollectorState where
  isEnabled : Bool
  session : Option CollectorSessionState
  tracker : SignalTracker
  uploader : Option (UploaderState TelemetryTurn)

/-- `TelemetryCollector.recordUserMessage` (collector.ts lines 202–222):
no-op when disabled or without a session; otherwise marks the tracker
turn-in-progress and opens a fresh current turn at the current index with the
sanitized user payload.  (The source also creates an unawaited, unused
`getConsentStatus` promise; it has no observable effect.)  An already-open
current turn is overwritten. -/
def recordUserMessage (san : String → String) (cst : CollectorState) (content : String)
    (hasImages hasFiles : Bool) (createdAt : String) : CollectorState :=
  if !cst.isEnabled then cst
  else
    match cst.session with
    | none => cst
    | some s =>
      let turn : PartialTurn :=
        { turnIndex := s.currentTurnIndex
          createdAt := createdAt
          userMessage := some ⟨san content, content.length, hasImages, hasFiles⟩
          assistantMessage := none
          toolCalls := []
          fileChanges := none
          wasRetried := false }
      { cst with
        tracker := cst.tracker.startTurn
        session := some { s with currentTurn := some turn } }

/-- `TelemetryCollector.recordAssistantMessage` (collector.ts lines 227–260):
no-op when disabled, without a session, or without an open turn; otherwise
stores the sanitized assistant payload on the current turn and updates the
per-model usage and the session token totals. -/
def recordAssistantMessage (san : String → String) (cst : CollectorState) (content : String)
    (modelId : String) (inputTokens outputTokens latencyMs : Nat) : CollectorState :=
  if !cst.isEnabled then cst
  else
    match cst.session with
    | none => cst
    | some s =>
      match s.currentTurn with
      | none => cst
      | some t =>
        let am : AssistantMessageData :=
          ⟨san content, content.length, modelId, inputTokens, outputTokens, latencyMs⟩
        let t1 := { t with assistantMessage := some am }
        { cst with
          session := some
            { s with
              currentTurn := some t1
              modelUsage := bumpModelUsage s.modelUsage modelId inputTokens outputTokens
              metrics :=
                { s.metrics with
                  totalInputTokens := s.metrics.totalInputTokens + inputTokens
                  totalOutputTokens := s.metrics.totalOutputTokens + outputTokens } } }

/-- `TelemetryCollector.recordToolCall` (collector.ts lines 265–294): no-op
without an open turn; otherwise appends the tool-call record, bumps the call
counters, and on an error with an `errorType` records it on the tracker. -/
def recordToolCall (cst : CollectorState) (name : String) (isError : Bool)
    (durationMs : Nat) (inputSize outputSize : Option Nat) (errorType : Option String) :
    CollectorState :=
  if !cst.isEnabled then cst
  else
    match cst.session with
    | none => cst
    | some s =>
      match s.currentTurn with
      | none => cst
      | some t =>
        let tc : ToolCallData := ⟨name, isError, durationMs, inputSize, outputSize, errorType⟩
        let t1 := { t with toolCalls := t.toolCalls ++ [tc] }
        let metrics1 :=
          { s.metrics with
            toolCallCount := s.metrics.toolCallCount + 1
            toolErrorCount := s.metrics.toolErrorCount + (if isError then 1 else 0) }
        let tracker1 :=
          if isError then
            match errorType with
            | some k => cst.tracker.recordError k
            | none => cst.tracker
          else cst.tracker
        { cst with
          tracker := tracker1
          session := some { s with currentTurn := some t1, metrics := metrics1 } }

/-- `TelemetryCollector.recordRetry` (collector.ts lines 328–333). -/
def recordRetry (cst : CollectorState) : CollectorState :=
  if !cst.isEnabled then cst
  else
    match cst.session with
    | none => cst
    | some s =>
      match s.currentTurn with
      | none => cst
      | some t =>
        { cst with
          tracker := cst.tracker.recordRetry
          session := some { s with currentTurn := some { t with wasRetried := true } } }

/-- `TelemetryCollector.recordCompaction` (collector.ts lines 338–341). -/
def recordCompaction (cst : CollectorState) : CollectorState :=
  if !cst.isEnabled then cst
  else { cst with tracker := cst.tracker.recordCompaction }

/-- `TelemetryCollector.finalizeTurn` (collector.ts lines 346–369): nothing to
do without a current turn; an incomplete turn (either payload missing) is
logged and discarded — current turn cleared, nothing enqueued, no counter
change, and no `endTurn` on the tracker; a complete turn is handed to
`uploader.addTurn` (which may trigger a size-based flush, hence the oracle),
the turn counter and turn index advance, and the tracker leaves
turn-in-progress. -/
def finalizeTurn (oracle : Nat → FetchResult Unit) (cst : CollectorState) : CollectorState :=
  match cst.session with
  | none => cst
  | some s =>
    match s.currentTurn with
    | none => cst
    | some t =>
      match t.userMessage, t.assistantMessage with
      | some u, some a =>
        let turn : TelemetryTurn :=
          ⟨t.turnIndex, t.createdAt, u, a, t.toolCalls, t.fileChanges, t.wasRetried⟩
        let uploader1 :=
          match cst.uploader with
          | some up => some (addTurn oracle up turn).1
          | none => none
        { cst with
          uploader := uploader1
          tracker := cst.tracker.endTurn
          session := some
            { s with
              metrics := { s.metrics with turnCount := s.metrics.turnCount + 1 }
              currentTurnIndex := s.currentTurnIndex + 1
              currentTurn := none } }
      | _, _ =>
        { cst with session := some { s with currentTurn := none } }

/-- The payload `endSession` PATCHes via `uploader.updateSession`. -/
structure SessionPatch where
  endedAt : String
  durationSeconds : Nat
  metrics : SessionMetrics
  signals : SessionSignals
  modelUsage : List (String × ModelUsageEntry)
  deriving DecidableEq

/-- `TelemetryCollector.endSession` (collector.ts lines 166–197): no-op when
disabled or without a session; otherwise finalizes any open turn, computes the
elapsed duration, PATCHes the final session fields (when an uploader exists)
and shuts the uploader down, then clears the session.  `nowMs` stands for
`Date.now()` and `endedAt` for `new Date().toISOString()`; `oF` is the oracle
for a flush triggered inside `finalizeTurn`, `oPatch` for the PATCH, `oS1`/
`oS2` for the two flushes `shutdown` may perform.  Returns the final collector
state and the PATCH payload sent (if any). -/
def endSession (oF oPatch oS1 oS2 : Nat → FetchResult Unit) (cst : CollectorState)
    (wasExplicitlyEnded : Bool) (nowMs : Nat) (endedAt : String) :
    CollectorState × Option SessionPatch :=
  if !cst.isEnabled then (cst, none)
  else
    match cst.session with
    | none => (cst, none)
    | some s =>
      let cst1 := if s.currentTurn.isSome then finalizeTurn oF cst else cst
      match cst1.session with
      | none => (cst1, none)
      | some s1 =>
        let durationSeconds := (nowMs - s.startedAtMs) / 1000
        match cst1.uploader with
        | some up =>
          let patch : SessionPatch :=
            ⟨endedAt, durationSeconds, s1.metrics,
              cst1.tracker.getSignals wasExplicitlyEnded, s1.modelUsage⟩
          let up1 := (updateSession oPatch up).1
          let up2 := shutdown oS1 oS2 up1
          ({ cst1 with session := none, uploader := some up2 }, some patch)
        | none =>
          ({ cst1 with session := none }, none)

/-! ### Sanitizer, redaction part (sanitizer.ts `redactSecrets`)

`redactSecrets` chains four JavaScript `String.replace` passes.  The model
implements each pass as a left-to-right scanner over `List Char` with the
exact deterministic match semantics of the source regexes (analysed below per
pattern), on the ASCII fragment: `\w` is `[A-Za-z0-9_]`, `\s` is the ASCII
whitespace characters, and `.` matches everything except the line terminators
`\n` and `\r`.  Replacement never rewrites replaced text again (the JS engine
continues scanning after the inserted replacement), which the drivers mirror
by recursing only on the input remaining after the match. -/

/-- JS `\w` (ASCII). -/
def isWordChar (c : Char) : Bool := c.isAlpha || c.isDigit || c = '_'

/-- JS `\s` (ASCII fragment): space, tab, LF, VT, FF, CR. -/
def isSpaceChar (c : Char) : Bool :=
  c = ' ' || c = '\t' || c = '\n' || c = Char.ofNat 11 || c = Char.ofNat 12 || c = '\r'

/-- JS `.` without the `s` flag: anything but a line terminator. -/
def isDotChar (c : Char) : Bool := !(c = '\n' || c = '\r')

def isUpperAZ (c : Char) : Bool := 'A' ≤ c && c ≤ 'Z'

/-- `[A-Z_]` — first character of an env-var name. -/
def isEnvNameStart (c : Char) : Bool := isUpperAZ c || c = '_'

/-- `[A-Z0-9_]` — later characters of an env-var name. -/
def isEnvNameChar (c : Char) : Bool := isUpperAZ c || c.isDigit || c = '_'

/-- `[A-Za-z0-9_-]` — the secret-token character class. -/
def isTokenChar (c : Char) : Bool := isWordChar c || c = '-'

def isAlnumChar (c : Char) : Bool := c.isAlpha || c.isDigit

/-- `[A-Z0-9]` — AWS access-key-id body. -/
def isUpperDigit (c : Char) : Bool := isUpperAZ c || c.isDigit

/-- `["']` — the optional quote around an env-var value. -/
def isQuoteChar (c : Char) : Bool := c = '"' || c = Char.ofNat 39

/-- JS `\b` between two (optional, out-of-bounds = absent) characters:
exactly one side is a word character. -/
def isBoundary (a b : Option Char) : Bool :=
  (match a with | some c => isWordChar c | none => false) !=
  (match b with | some c => isWordChar c | none => false)

def isWordOpt (a : Option Char) : Bool :=
  match a with
  | some c => isWordChar c
  | none => false

/-- Case-sensitive prefix test on character lists. -/
def listStartsWith : List Char → List Char → Bool
  | _, [] => true
  | [], _ :: _ => false
  | a :: as, b :: bs => a = b && listStartsWith as bs

/-- Case-insensitive prefix test (for the `i`-flagged regexes). -/
def startsWithCI : List Char → List Char → Bool
  | _, [] => true
  | [], _ :: _ => false
  | a :: as, b :: bs => a.toLower = b.toLower && startsWithCI as bs

/-- Substring containment on character lists. -/
def containsSub : List Char → List Char → Bool
  | hay, needle =>
    match hay with
    | [] => needle.isEmpty
    | _ :: rest => listStartsWith hay needle || containsSub rest needle

/-- `isSensitiveEnvVar` (sanitizer.ts lines 71–73): the name matches one of
`SENSITIVE_ENV_PATTERNS`, all of which are case-insensitive substring tests
(`/api_?key/i` is containment of `apikey` or `api_key`, `/access_?key/i`
likewise). -/
def isSensitiveEnvVar (name : String) : Bool :=
  let n := name.data.map Char.toLower
  containsSub n "key".data || containsSub n "secret".data || containsSub n "token".data ||
    containsSub n "password".data || containsSub n "credential".data ||
    containsSub n "auth".data || containsSub n "private".data ||
    containsSub n "api_key".data || containsSub n "apikey".data ||
    containsSub n "access_key".data || containsSub n "accesskey".data

/-- The literal replacement text. -/
def REDACTED : List Char := "[REDACTED]".data

/-- The quoted-value alternative of the env-assignment pattern, after the
opening quote `q` has been consumed: `.+?\2$` forces the match to run to the
next end-of-line (`$` under the `m` flag sits before a line terminator — `\n`
or `\r` — or at the end, and `.` cannot cross a line terminator), with the
character before that end-of-line equal to `q` and at least one value
character before it.  Returns
the value (closing quote excluded) and the rest starting at the `$` position. -/
def envQuotedValue (q : Char) (s : List Char) : Option (List Char × List Char) :=
  let run := s.takeWhile isDotChar
  let rest := s.drop run.length
  if (rest.isEmpty || rest.head? = some '\n' || rest.head? = some '\r')
      && 2 ≤ run.length && run.getLast? = some q then
    some (run.dropLast, rest)
  else none

/-- The unquoted alternative (`\2` empty): `.+?$` runs to the next
end-of-line, needing at least one character. -/
def envUnquotedValue (s : List Char) : Option (List Char × List Char) :=
  let run := s.takeWhile isDotChar
  let rest := s.drop run.length
  if (rest.isEmpty || rest.head? = some '\n' || rest.head? = some '\r') && 1 ≤ run.length then
    some (run, rest)
  else none

/-- One anchored attempt of `/^(\s*[A-Z_][A-Z0-9_]*\s*=\s*)(["']?)(.+?)\2$/`
at a line-start position.  All quantifiers before the value are forced (their
character classes are disjoint from what must follow), so matching is
deterministic; the quote alternative is tried with the quote first (greedy
`?`), falling back to the empty quote.  On success returns
`(prefix, name, matchedTail, redactedTail, rest)` where the full matched text
is `prefix ++ matchedTail`, `redactedTail` is what the callback substitutes
for `matchedTail` when the name is sensitive, and `rest` is the input after
the match.  Note `\s` can cross newlines, so a match may span physical lines. -/
def envMatch (s : List Char) :
    Option (List Char × List Char × List Char × List Char × List Char) :=
  let ws1 := s.takeWhile isSpaceChar
  match s.drop ws1.length with
  | [] => none
  | c :: r2 =>
    if isEnvNameStart c then
      let nm := r2.takeWhile isEnvNameChar
      let name := c :: nm
      let r3 := r2.drop nm.length
      let ws2 := r3.takeWhile isSpaceChar
      match r3.drop ws2.length with
      | '=' :: r5 =>
        let ws3 := r5.takeWhile isSpaceChar
        let r6 := r5.drop ws3.length
        let pre := ws1 ++ name ++ ws2 ++ ['='] ++ ws3
        let unquoted : Option (List Char × List Char × List Char × List Char × List Char) :=
          match envUnquotedValue r6 with
          | some (v, rest) => some (pre, name, v, REDACTED, rest)
          | none => none
        match r6 with
        | q :: r7 =>
          if isQuoteChar q then
            match envQuotedValue q r7 with
            | some (v, rest) =>
              some (pre, name, q :: v ++ [q], q :: REDACTED ++ [q], rest)
            | none => unquoted
          else unquoted
        | [] => none
      | _ => none
    else none

/-- The global, multiline env-assignment pass (sanitizer.ts lines 82–88):
attempt the anchored match at every `^` position (string start or just after
a line terminator `\n`/`\r`); on a match, substitute the redacted tail when
the name is sensitive and the match itself otherwise, and continue scanning
after the match (a match ends at an end-of-line, so the following position is
never a line start).  `fuel` bounds recursion depth; every step consumes at
least one input character, so `length + 1` suffices. -/
def redactEnvGo : Nat → Bool → List Char → List Char
  | 0, _, s => s
  | _ + 1, _, [] => []
  | fuel + 1, atStart, c :: rest =>
    if atStart then
      match envMatch (c :: rest) with
      | some (pre, name, tail, redTail, restAfter) =>
        (if isSensitiveEnvVar ⟨name⟩ then pre ++ redTail else pre ++ tail)
          ++ redactEnvGo fuel false restAfter
      | none => c :: redactEnvGo fuel (c = '\n' || c = '\r') rest
    else
      c :: redactEnvGo fuel (c = '\n' || c = '\r') rest

/-- First pass of `redactSecrets`. -/
def redactEnvAssignments (s : List Char) : List Char :=
  redactEnvGo (s.length + 1) true s

/-- Greedy `{minLen,}` with a trailing `\b`: given the maximal class run at
the match position and the character following it, find the largest length
`j ≤ run.length`, `j ≥ minLen`, such that the word boundary holds between the
j-th run character and its successor (backtracking downwards, as the regex
engine does).  The argument of the recursion is the candidate length. -/
def greedyEndLen (run : List Char) (next : Option Char) (minLen : Nat) : Nat → Option Nat
  | 0 => none
  | j + 1 =>
    if j + 1 < minLen then none
    else
      let after := if j + 1 < run.length then run.get? (j + 1) else next
      if isBoundary (run.get? j) after then some (j + 1)
      else greedyEndLen run next minLen j

/-- A global `String.replace` pass.  `matchAt prev s` reports a match at the
head of `s` (given the previous input character, for `\b`) as
`(keep, dropLen)`: the first `keep` matched characters are kept verbatim (the
`$1` group) and the following `dropLen` characters are replaced by `repl`.
On failure the scanner emits one character and advances — exactly the
leftmost-match, continue-after-the-replacement semantics of the JS engine.
Every step consumes at least one input character, so fuel `length + 1`
suffices. -/
def replaceAll (matchAt : Option Char → List Char → Option (Nat × Nat)) (repl : List Char) :
    Nat → Option Char → List Char → List Char
  | 0, _, s => s
  | _ + 1, _, [] => []
  | fuel + 1, prev, c :: rest =>
    match matchAt prev (c :: rest) with
    | some (keep, dropLen) =>
      if keep + dropLen = 0 then c :: replaceAll matchAt repl fuel (some c) rest
      else
        let s := c :: rest
        s.take keep ++ repl ++
          replaceAll matchAt repl fuel (s.get? (keep + dropLen - 1)) (s.drop (keep + dropLen))
    | none => c :: replaceAll matchAt repl fuel (some c) rest

/-- Run a pass over a whole string (no previous character at the start). -/
def replaceAllFull (matchAt : Option Char → List Char → Option (Nat × Nat))
    (repl : List Char) (s : List Char) : List Char :=
  replaceAll matchAt repl (s.length + 1) none s

/-- `/\b[A-Za-z0-9_-]{32,}\b/` — at a boundary-preceded class character, the
run is taken greedily and shortened until the trailing boundary holds. -/
def runMatchAt (classChar : Char → Bool) (minLen : Nat) (prev : Option Char)
    (s : List Char) : Option (Nat × Nat) :=
  match s with
  | [] => none
  | c :: _ =>
    if classChar c && isBoundary prev (some c) then
      let run := s.takeWhile classChar
      let next := (s.drop run.length).head?
      match greedyEndLen run next minLen run.length with
      | some j => some (0, j)
      | none => none
    else none

/-- The generic long-token pattern `/\b[A-Za-z0-9_-]{32,}\b/g`. -/
def generic32MatchAt : Option Char → List Char → Option (Nat × Nat) :=
  runMatchAt isTokenChar 32

/-- `/\bsk[-_][A-Za-z0-9]{20,}\b/g`.  The trailing `\b` needs a non-word
successor; shorter lengths cannot restore it (the successor would be an
alphanumeric), so no backtracking case arises. -/
def skMatchAt (prev : Option Char) (s : List Char) : Option (Nat × Nat) :=
  match s with
  | 's' :: 'k' :: d :: rest =>
    if isBoundary prev (some 's') && (d = '-' || d = '_') then
      let run := rest.takeWhile isAlnumChar
      if 20 ≤ run.length && !isWordOpt ((rest.drop run.length).head?) then
        some (0, 3 + run.length)
      else none
    else none
  | _ => none

/-- `/\bghp_[A-Za-z0-9]{36}\b/g` and `/\bgho_[A-Za-z0-9]{36}\b/g` share this
shape (`p3` is the third prefix letter): exactly 36 alphanumerics, then a
word boundary (so the 37th character, if any, must be a non-word one). -/
def githubTokenMatchAt (p3 : Char) (prev : Option Char) (s : List Char) :
    Option (Nat × Nat) :=
  match s with
  | 'g' :: 'h' :: c :: '_' :: rest =>
    if c = p3 && isBoundary prev (some 'g') then
      let run := rest.takeWhile isAlnumChar
      if 36 ≤ run.length && !isWordOpt ((rest.drop 36).head?) then some (0, 40)
      else none
    else none
  | _ => none

def ghpMatchAt : Option Char → List Char → Option (Nat × Nat) := githubTokenMatchAt 'p'

def ghoMatchAt : Option Char → List Char → Option (Nat × Nat) := githubTokenMatchAt 'o'

/-- `/\bAKIA[A-Z0-9]{16}\b/g`: exactly 16 of `[A-Z0-9]`, then a boundary. -/
def akiaMatchAt (prev : Option Char) (s : List Char) : Option (Nat × Nat) :=
  match s with
  | 'A' :: 'K' :: 'I' :: 'A' :: rest =>
    if isBoundary prev (some 'A') then
      let run := rest.takeWhile isUpperDigit
      if 16 ≤ run.length && !isWordOpt ((rest.drop 16).head?) then some (0, 20)
      else none
    else none
  | _ => none

/-- `/\bey[A-Za-z0-9_-]{20,}\.[A-Za-z0-9_-]{20,}\.[A-Za-z0-9_-]{20,}\b/g`:
the first two segments are forced maximal (`.` is outside the class), the
last backtracks for the trailing boundary like the generic pattern. -/
def jwtMatchAt (prev : Option Char) (s : List Char) : Option (Nat × Nat) :=
  match s with
  | 'e' :: 'y' :: rest =>
    if isBoundary prev (some 'e') then
      let seg1 := rest.takeWhile isTokenChar
      if 20 ≤ seg1.length then
        match rest.drop seg1.length with
        | '.' :: r2 =>
          let seg2 := r2.takeWhile isTokenChar
          if 20 ≤ seg2.length then
            match r2.drop seg2.length with
            | '.' :: r3 =>
              let seg3 := r3.takeWhile isTokenChar
              let next := (r3.drop seg3.length).head?
              match greedyEndLen seg3 next 20 seg3.length with
              | some j => some (0, 2 + seg1.length + 1 + seg2.length + 1 + j)
              | none => none
            | _ => none
          else none
        | _ => none
      else none
    else none
  | _ => none

/-- `/\bqbr_[A-Za-z0-9]{32,}\b/g` — same shape as the sk pattern. -/
def qbrMatchAt (prev : Option Char) (s : List Char) : Option (Nat × Nat) :=
  match s with
  | 'q' :: 'b' :: 'r' :: '_' :: rest =>
    if isBoundary prev (some 'q') then
      let run := rest.takeWhile isAlnumChar
      if 32 ≤ run.length && !isWordOpt ((rest.drop run.length).head?) then
        some (0, 4 + run.length)
      else none
    else none
  | _ => none

/-- `/(Authorization:\s*Bearer\s+)([^\s]+)/gi` — group 1 (kept verbatim) is
the header name, inter-word whitespace and `Bearer`; the non-whitespace token
after it is replaced. -/
def bearerMatchAt (_ : Option Char) (s : List Char) : Option (Nat × Nat) :=
  if startsWithCI s "authorization:".data then
    let r1 := s.drop 14
    let ws1 := r1.takeWhile isSpaceChar
    let r2 := r1.drop ws1.length
    if startsWithCI r2 "bearer".data then
      let r3 := r2.drop 6
      let ws2 := r3.takeWhile isSpaceChar
      let r4 := r3.drop ws2.length
      let tok := r4.takeWhile (fun c => !isSpaceChar c)
      if 1 ≤ ws2.length && 1 ≤ tok.length then
        some (14 + ws1.length + 6 + ws2.length, tok.length)
      else none
    else none
  else none

def jsonKeywords : List (List Char) :=
  ["password".data, "secret".data, "token".data, "key".data, "credential".data, "auth".data]

/-- `/("(?:password|secret|token|key|credential|auth)[^"]*"\s*:\s*)"([^"]+)"/gi`
— a quoted key beginning (case-insensitively) with one of the keywords, a
colon with surrounding whitespace (all kept verbatim as group 1), then a
quoted, non-empty value, which is replaced together with its quotes by
`"[REDACTED]"`.  `[^"]` matches any non-quote character, line terminators
included. -/
def jsonFieldMatchAt (_ : Option Char) (s : List Char) : Option (Nat × Nat) :=
  match s with
  | '"' :: r1 =>
    if jsonKeywords.any (fun kw => startsWithCI r1 kw) then
      let keyRest := r1.takeWhile (fun c => c ≠ '"')
      match r1.drop keyRest.length with
      | '"' :: r3 =>
        let ws1 := r3.takeWhile isSpaceChar
        match r3.drop ws1.length with
        | ':' :: r5 =>
          let ws2 := r5.takeWhile isSpaceChar
          match r5.drop ws2.length with
          | '"' :: r7 =>
            let v := r7.takeWhile (fun c => c ≠ '"')
            if 1 ≤ v.length && (r7.drop v.length).head? = some '"' then
              some (1 + keyRest.length + 1 + ws1.length + 1 + ws2.length, 1 + v.length + 1)
            else none
          | _ => none
        | _ => none
      | _ => none
    else none
  | _ => none

/-- `redactSecrets` (sanitizer.ts lines 78–105): the env-assignment pass,
the seven `SECRET_VALUE_PATTERNS` in array order, the Bearer-header pass, and
the JSON-field pass, chained in exactly that order. -/
def redactSecrets (content : String) : String :=
  let r0 := redactEnvAssignments content.data
  let r1 := replaceAllFull generic32MatchAt REDACTED r0
  let r2 := replaceAllFull skMatchAt REDACTED r1
  let r3 := replaceAllFull ghpMatchAt REDACTED r2
  let r4 := replaceAllFull ghoMatchAt REDACTED r3
  let r5 := replaceAllFull akiaMatchAt REDACTED r4
  let r6 := replaceAllFull jwtMatchAt REDACTED r5
  let r7 := replaceAllFull qbrMatchAt REDACTED r6
  let r8 := replaceAllFull bearerMatchAt REDACTED r7
  let r9 := replaceAllFull jsonFieldMatchAt ('"' :: REDACTED ++ ['"']) r8
  ⟨r9⟩

/-- `sanitizeContent` (sanitizer.ts lines 124–137): redact, then truncate.
(The source also assembles `allPatterns` from the exclude patterns but never
uses the result.)  `digestHex` abstracts the SHA-256 hex digest used by the
truncation marker. -/
def sanitizeContent (digestHex : String → String) (content : String) : String :=
  truncateContent digestHex (redactSecrets content)

/-! ## Theorems -/

/-! ### Helper lemmas about `makeRequest` -/

theorem makeRequestFrom_attempts_le {β : Type} (oracle : Nat → FetchResult β) :
    ∀ (fuel attempt : Nat), (makeRequestFrom oracle attempt fuel).attempts ≤ fuel := by
  intro fuel
  induction fuel with
  | zero => intro attempt; simp [makeRequestFrom]
  | succ n ih =>
    intro attempt
    simp only [makeRequestFrom]
    cases h : oracle attempt with
    | http status body =>
      by_cases hok : responseOk status
      · simp [hok]
      · by_cases hce : isClientError status
        · simp [hok, hce]
        · simpa [hok, hce] using Nat.succ_le_succ (ih (attempt + 1))
    | netError isFetch =>
      simpa using Nat.succ_le_succ (ih (attempt + 1))

/-- A retriable attempt outcome: a non-2xx, non-4xx response, or a rejection. -/
def retriableAt {β : Type} (oracle : Nat → FetchResult β) (i : Nat) : Prop :=
  (∃ s b, oracle i = .http s b ∧ responseOk s = false ∧ isClientError s = false) ∨
    (∃ e, oracle i = .netError e)

theorem makeRequestFrom_result_none {β : Type} (oracle : Nat → FetchResult β) :
    ∀ (fuel attempt : Nat), (∀ i, attempt ≤ i → i < attempt + fuel → retriableAt oracle i) →
      (makeRequestFrom oracle attempt fuel).result = none := by
  intro fuel
  induction fuel with
  | zero => intro attempt _; simp [makeRequestFrom]
  | succ n ih =>
    intro attempt h
    have hcur : retriableAt oracle attempt := h attempt le_rfl (by omega)
    have htail : ∀ i, attempt + 1 ≤ i → i < attempt + 1 + n → retriableAt oracle i := by
      intro i h1 h2
      exact h i (by omega) (by omega)
    simp only [makeRequestFrom]
    rcases hcur with ⟨s, b, hsb, hok, hce⟩ | ⟨e, he⟩
    · simp [hsb, hok, hce, ih (attempt + 1) htail]
    · simp [he, ih (attempt + 1) htail]

theorem makeRequestFrom_result_some {β : Type} (oracle : Nat → FetchResult β) :
    ∀ (fuel attempt : Nat) (b : β), (makeRequestFrom oracle attempt fuel).result = some b →
      ∃ i s, attempt ≤ i ∧ i < attempt + fuel ∧ oracle i = .http s b ∧ responseOk s = true := by
  intro fuel
  induction fuel with
  | zero => intro attempt b h; simp [makeRequestFrom] at h
  | succ n ih =>
    intro attempt b h
    simp only [makeRequestFrom] at h
    cases hcur : oracle attempt with
    | http status body =>
      rw [hcur] at h
      by_cases hok : responseOk status
      · refine ⟨attempt, status, le_rfl, by omega, ?_, hok⟩
        simp [hok] at h
        simpa [h] using hcur
      · by_cases hce : isClientError status
        · simp [hok, hce] at h
        · simp only [hok, hce, if_false] at h
          obtain ⟨i, s, h1, h2, h3, h4⟩ := ih (attempt + 1) b h
          exact ⟨i, s, by omega, by omega, h3, h4⟩
    | netError isFetch =>
      rw [hcur] at h
      simp only at h
      obtain ⟨i, s, h1, h2, h3, h4⟩ := ih (attempt + 1) b h
      exact ⟨i, s, by omega, by omega, h3, h4⟩

/-! ### C5 — retry policy -/

/-- A mocked endpoint answering HTTP 500 to the first three requests and
succeeding afterwards. -/
def oracle500x3 : Nat → FetchResult Unit :=
  fun n => if n < 3 then .http 500 () else .http 200 ()

/-- A mocked endpoint answering HTTP 500 twice, then succeeding. -/
def oracle500x2 : Nat → FetchResult Unit :=
  fun n => if n < 2 then .http 500 () else .http 200 ()

/-- A mocked endpoint answering HTTP 400. -/
def oracle400 : Nat → FetchResult Unit := fun _ => .http 400 ()

/-- C5, counterexample: against an endpoint that returns HTTP 500 three times
and then success, `makeRequest` performs exactly 3 attempts — all three
receive a 500 — and resolves `null`: it never reaches the successful fourth
response, contradicting the claimed "exactly 3 attempts and eventual
success". -/
theorem c5_counterexample :
    (makeRequest oracle500x3).attempts = 3 ∧ (makeRequest oracle500x3).result ≠ some () := by
  constructor
  · rfl
  · decide

/-- C5, amended: no request is ever attempted more than 3 times; an endpoint
returning HTTP 500 twice and then success yields exactly 3 attempts and
eventual success, with exponential backoff sleeps of 1000 ms then 2000 ms
between the attempts; an endpoint returning HTTP 500 three (or more) times
yields exactly 3 attempts, the same backoff, and failure (`null`); an
endpoint returning HTTP 400 yields exactly 1 attempt, no backoff, and
failure (4xx is terminal). -/
theorem c5_retry_policy :
    (∀ (β : Type) (oracle : Nat → FetchResult β), (makeRequest oracle).attempts ≤ 3) ∧
      makeRequest oracle500x2 = ⟨some (), 3, [1000, 2000], false⟩ ∧
      makeRequest oracle500x3 = ⟨none, 3, [1000, 2000], false⟩ ∧
      makeRequest oracle400 = ⟨none, 1, [], false⟩ := by
  refine ⟨fun β oracle => makeRequestFrom_attempts_le oracle 3 0, ?_, ?_, ?_⟩ <;> decide

/-! ### C10 — `makeRequest` resolves on every path -/

/-- C10: `makeRequest` is a total function into `Option` — it resolves on
every oracle, never propagating an exception (every `fetch` rejection is
caught inside the loop; the only code outside the `try` is the backoff
sleep) — and: a first-attempt 4xx response resolves `null` with no retry;
three retriable responses (5xx here) resolve `null`; three rejections resolve
`null`; and a `some` result occurs only by returning the parsed body of a
2xx response received on one of the at most three attempts. -/
theorem c10_makeRequest_resolves {β : Type} (oracle : Nat → FetchResult β) :
    ((∃ s b, oracle 0 = .http s b ∧ responseOk s = false ∧ isClientError s = true) →
        (makeRequest oracle).result = none ∧ (makeRequest oracle).attempts = 1) ∧
      ((∀ i, i < 3 → ∃ s b, oracle i = .http s b ∧ responseOk s = false ∧
          isClientError s = false) → (makeRequest oracle).result = none) ∧
      ((∀ i, i < 3 → ∃ e, oracle i = .netError e) → (makeRequest oracle).result = none) ∧
      (∀ b, (makeRequest oracle).result = some b →
        ∃ i s, i < 3 ∧ oracle i = .http s b ∧ responseOk s = true) := by
  refine ⟨?_, ?_, ?_, ?_⟩
  · rintro ⟨s, b, hsb, hok, hce⟩
    constructor <;> simp [makeRequest, makeRequestFrom, MAX_RETRY_ATTEMPTS, hsb, hok, hce]
  · intro h
    refine makeRequestFrom_result_none oracle 3 0 ?_
    intro i _ hi
    exact Or.inl (h i (by omega))
  · intro h
    refine makeRequestFrom_result_none oracle 3 0 ?_
    intro i _ hi
    exact Or.inr (h i (by omega))
  · intro b h
    obtain ⟨i, s, _, h2, h3, h4⟩ := makeRequestFrom_result_some oracle 3 0 b h
    exact ⟨i, s, by omega, h3, h4⟩

/-- C10, witness: the hypotheses of the conjuncts are satisfiable — at the
all-400 oracle the first conjunct applies and gives `none` in one attempt. -/
theorem c10_witness :
    (makeRequest oracle400).result = none ∧ (makeRequest oracle400).attempts = 1 :=
  (c10_makeRequest_resolves oracle400).1 ⟨400, (), rfl, rfl, rfl⟩

/-! ### C1 — failed send drops the batch (requeue branch is dead code) -/

/-- An endpoint that always answers HTTP 500. -/
def oracle500 : Nat → FetchResult Unit := fun _ => .http 500 ()

/-- C1: an online uploader with a remote session id and one pending turn whose
send fails (HTTP 500 on all three attempts).  The source intends the `catch`
of `flush` to prepend the swapped-out batch back onto `pendingTurns`
("Put turns back in queue"), but `makeRequest` resolves `null` instead of
rejecting, so the catch never runs: after the failed send the batch is in
neither `pendingTurns` nor `offlineQueue` — the turn is silently dropped. -/
theorem c1_failed_send_drops_batch :
    (flush oracle500 (⟨[7], some "doc-1", true, [], 5⟩ : UploaderState Nat)).requestMade = true ∧
      (flush oracle500 (⟨[7], some "doc-1", true, [], 5⟩ : UploaderState Nat)).sendResult = none ∧
      (flush oracle500 (⟨[7], some "doc-1", true, [], 5⟩ : UploaderState Nat)).sentTurns = [7] ∧
      (flush oracle500 (⟨[7], some "doc-1", true, [], 5⟩ : UploaderState Nat)).state.pendingTurns
        = [] ∧
      (flush oracle500 (⟨[7], some "doc-1", true, [], 5⟩ : UploaderState Nat)).state.offlineQueue
        = [] := by
  decide

/-! ### C6 — offline transitions -/

/-- Invariant of a run of `addTurn` calls against an offline uploader that has
a remote session id: the uploader stays offline with the same id and batch
size, no network request is ever attempted, and the offline queue followed by
the pending buffer accumulates exactly the added turns in order (size-
triggered flushes merely move prefixes into the offline queue). -/
theorem addTurnsAcc_offline {α : Type} (oracle : Nat → FetchResult Unit) (d : String) :
    ∀ (ts : List α) (st : UploaderState α) (req : Bool),
      st.isOnline = false → st.sessionDocId = some d →
      (addTurnsAcc oracle (st, req) ts).1.isOnline = false ∧
        (addTurnsAcc oracle (st, req) ts).1.sessionDocId = some d ∧
        (addTurnsAcc oracle (st, req) ts).1.batchSize = st.batchSize ∧
        (addTurnsAcc oracle (st, req) ts).1.offlineQueue
            ++ (addTurnsAcc oracle (st, req) ts).1.pendingTurns
          = st.offlineQueue ++ st.pendingTurns ++ ts ∧
        (addTurnsAcc oracle (st, req) ts).2 = req := by
  intro ts
  induction ts with
  | nil =>
    intro st req hon hdoc
    simpa [addTurnsAcc] using ⟨hon, hdoc⟩
  | cons t ts ih =>
    intro st req hon hdoc
    by_cases hb : st.batchSize ≤ (st.pendingTurns ++ [t]).length
    · -- the size-triggered flush fires and, being offline, queues the buffer
      have hstep : addTurnsAcc oracle (st, req) (t :: ts)
          = addTurnsAcc oracle
              (⟨[], st.sessionDocId, st.isOnline,
                  st.offlineQueue ++ (st.pendingTurns ++ [t]), st.batchSize⟩, req) ts := by
        show addTurnsAcc oracle
            ((addTurn oracle st t).1, req || (addTurn oracle st t).2) ts = _
        have hflush : addTurn oracle st t
            = (⟨[], st.sessionDocId, st.isOnline,
                  st.offlineQueue ++ (st.pendingTurns ++ [t]), st.batchSize⟩, false) := by
          simp only [addTurn, flush, hb, if_true]
          simp [hon, hdoc]
        rw [hflush]
        simp
      rw [hstep]
      obtain ⟨h1, h2, h3, h4, h5⟩ :=
        ih ⟨[], st.sessionDocId, st.isOnline,
              st.offlineQueue ++ (st.pendingTurns ++ [t]), st.batchSize⟩ req
          (by simpa using hon) (by simpa using hdoc)
      refine ⟨h1, h2, by simpa using h3, ?_, h5⟩
      rw [h4]
      simp [List.append_assoc]
    · have hstep : addTurnsAcc oracle (st, req) (t :: ts)
          = addTurnsAcc oracle
              (⟨st.pendingTurns ++ [t], st.sessionDocId, st.isOnline,
                  st.offlineQueue, st.batchSize⟩, req) ts := by
        show addTurnsAcc oracle
            ((addTurn oracle st t).1, req || (addTurn oracle st t).2) ts = _
        have hadd : addTurn oracle st t
            = (⟨st.pendingTurns ++ [t], st.sessionDocId, st.isOnline,
                  st.offlineQueue, st.batchSize⟩, false) := by
          have hb2 : ¬ st.batchSize ≤ st.pendingTurns.length + 1 := by simpa using hb
          simp [addTurn, hb2]
        rw [hadd]
        simp
      rw [hstep]
      obtain ⟨h1, h2, h3, h4, h5⟩ :=
        ih ⟨st.pendingTurns ++ [t], st.sessionDocId, st.isOnline,
              st.offlineQueue, st.batchSize⟩ req
          (by simpa using hon) (by simpa using hdoc)
      refine ⟨h1, h2, by simpa using h3, ?_, h5⟩
      rw [h4]
      simp [List.append_assoc]

/-- C6: starting from a fresh uploader (empty buffers) that has a remote
session id and was set offline, adding N turns and then flushing leaves the
pending buffer empty and the offline queue holding exactly those N turns in
order, with no network request attempted anywhere (neither by size-triggered
flushes nor by the final one); a subsequent `setOnline(true)` on that state
moves the offline queue into the pending buffer and attempts one send of
exactly those turns; and `setOnline(true)` while already online drains
nothing and attempts nothing. -/
theorem c6_offline_transitions {α : Type} (oracle o2 : Nat → FetchResult Unit) (d : String)
    (ts : List α) (bs : Nat) :
    ((flush oracle (addTurnsAcc oracle (⟨[], some d, false, [], bs⟩, false) ts).1).state
        = ⟨[], some d, false, ts, bs⟩ ∧
      (addTurnsAcc oracle (⟨[], some d, false, [], bs⟩, false) ts).2 = false ∧
      (flush oracle (addTurnsAcc oracle (⟨[], some d, false, [], bs⟩, false) ts).1).requestMade
        = false) ∧
      (ts ≠ [] →
        (setOnline o2 (⟨[], some d, false, ts, bs⟩ : UploaderState α) true).requestMade = true ∧
          (setOnline o2 (⟨[], some d, false, ts, bs⟩ : UploaderState α) true).sentTurns = ts) ∧
      (∀ st : UploaderState α, st.isOnline = true →
        setOnline o2 st true = ⟨st, false, none, []⟩) := by
  refine ⟨?_, ?_, ?_⟩
  · obtain ⟨hon, hdoc, hbs, hconcat, hreq⟩ :=
      addTurnsAcc_offline oracle d ts ⟨[], some d, false, [], bs⟩ false rfl rfl
    refine ⟨?_, hreq, ?_⟩ <;>
    · cases h : (addTurnsAcc oracle (⟨[], some d, false, [], bs⟩, false) ts).1 with
      | mk p sd onl oq b =>
        rw [h] at hon hdoc hbs hconcat
        have honl : onl = false := hon
        have hsd : sd = some d := hdoc
        have hb : b = bs := hbs
        have hcat : oq ++ p = ts := by simpa using hconcat
        subst honl hsd hb
        by_cases hp : p = []
        · subst hp
          simp only [List.append_nil] at hcat
          simp [flush, hcat]
        · simp [flush, hp, hcat]
  · intro hts
    constructor <;> simp [setOnline, flush, hts]
  · intro st h
    cases st with
    | mk p sd onl oq b =>
      have h2 : onl = true := h
      subst h2
      simp [setOnline]

/-- The oracle used by the C6 witness. -/
def wOracle : Nat → FetchResult Unit := fun _ => .http 200 ()

/-- C6, witness: at `ts = [1, 2]` the offline queue drains into one send, and
a `setOnline(true)` on an online uploader is inert. -/
theorem c6_witness :
    ((setOnline wOracle (⟨[], some "d", false, [1, 2], 5⟩ : UploaderState Nat) true).requestMade
        = true ∧
      (setOnline wOracle (⟨[], some "d", false, [1, 2], 5⟩ : UploaderState Nat) true).sentTurns
        = [1, 2]) ∧
      setOnline wOracle (⟨[], some "x", true, [], 5⟩ : UploaderState Nat) true
        = ⟨⟨[], some "x", true, [], 5⟩, false, none, []⟩ :=
  ⟨(c6_offline_transitions wOracle wOracle "d" [1, 2] 5).2.1 (by decide),
    (c6_offline_transitions wOracle wOracle "d" [1, 2] 5).2.2 _ rfl⟩

/-! ### C2 — a turn is uploaded iff it is complete -/

theorem updateSession_queues {α : Type} (o : Nat → FetchResult Unit) (st : UploaderState α) :
    (updateSession o st).1.pendingTurns = st.pendingTurns ∧
      (updateSession o st).1.offlineQueue = st.offlineQueue := by
  cases h : st.sessionDocId <;> simp [updateSession, h]

theorem shutdown_inert {α : Type} (o1 o2 : Nat → FetchResult Unit) (st : UploaderState α)
    (h1 : st.pendingTurns = []) (h2 : st.offlineQueue = []) : shutdown o1 o2 st = st := by
  simp [shutdown, h1, h2]

/-- C2: on an enabled collector with an active session, no open turn, and an
uploader with empty buffers (batch size at least 2, so the single enqueue does
not trigger a size-based flush): recording a user message, then an assistant
message, then finalizing enqueues exactly one turn — carrying both sanitized
payloads — onto the uploader pending buffer and increments the session turn
counter; omitting the assistant message (user message then `endSession`)
leaves the queues empty and the PATCHed turn counter unchanged; omitting the
user message (assistant message is a no-op without an open turn, then
`endSession`) does the same.  All three runs are plain function evaluations —
no error is raised. -/
theorem c2_turn_completeness
    (san : String → String) (tr : SignalTracker)
    (sid uid oid : String) (startedMs : Nat) (met : SessionMetrics)
    (mu : List (String × ModelUsageEntry)) (cti : Nat)
    (docId : Option String) (ion : Bool) (bs : Nat) (hbs : 2 ≤ bs)
    (content acontent modelId createdAt endedAt : String) (hi hf : Bool)
    (itok otok lat nowMs : Nat)
    (oracle oF oPatch oS1 oS2 : Nat → FetchResult Unit) :
    (let s : CollectorSessionState := ⟨sid, uid, oid, startedMs, met, mu, cti, none⟩
    let u : UploaderState TelemetryTurn := ⟨[], docId, ion, [], bs⟩
    let cst : CollectorState := ⟨true, some s, tr, some u⟩
    let cA := finalizeTurn oracle
      (recordAssistantMessage san
        (recordUserMessage san cst content hi hf createdAt) acontent modelId itok otok lat)
    let cB := endSession oF oPatch oS1 oS2
      (recordUserMessage san cst content hi hf createdAt) true nowMs endedAt
    let cC := endSession oF oPatch oS1 oS2
      (recordAssistantMessage san cst acontent modelId itok otok lat) true nowMs endedAt
    (cA.uploader = some
        ⟨[⟨cti, createdAt, ⟨san content, content.length, hi, hf⟩,
            ⟨san acontent, acontent.length, modelId, itok, otok, lat⟩, [], none, false⟩],
          docId, ion, [], bs⟩ ∧
      (∃ sA, cA.session = some sA ∧ sA.metrics.turnCount = met.turnCount + 1 ∧
        sA.currentTurnIndex = cti + 1 ∧ sA.currentTurn = none)) ∧
      ((∃ uB, cB.1.uploader = some uB ∧ uB.pendingTurns = [] ∧ uB.offlineQueue = []) ∧
        (∃ pB, cB.2 = some pB ∧ pB.metrics.turnCount = met.turnCount)) ∧
      ((∃ uC, cC.1.uploader = some uC ∧ uC.pendingTurns = [] ∧ uC.offlineQueue = []) ∧
        (∃ pC, cC.2 = some pC ∧ pC.metrics.turnCount = met.turnCount))) := by
  have hb1 : ¬ bs ≤ 0 + 1 := by omega
  refine ⟨?_, ?_, ?_⟩
  · simp [recordUserMessage, recordAssistantMessage, finalizeTurn, addTurn, hb1]
  · cases docId <;>
      simp [recordUserMessage, endSession, finalizeTurn, updateSession, shutdown]
  · cases docId <;>
      simp [recordAssistantMessage, endSession, finalizeTurn, updateSession, shutdown]

/-- Metrics record used by witnesses. -/
def wMetrics : SessionMetrics := ⟨0, 0, 0, 0, 0, 0, 0, 0, 0⟩

/-- C2, witness: the complete-turn scenario at concrete inputs bumps the turn
counter from 0 to 1. -/
theorem c2_witness :
    ∃ sA, (finalizeTurn wOracle
        (recordAssistantMessage id
          (recordUserMessage id
            ⟨true, some ⟨"s", "u", "o", 0, wMetrics, [], 0, none⟩, SignalTracker.reset,
              some ⟨[], some "d", true, [], 5⟩⟩
            "hi" false false "t0")
          "ok" "m1" 1 2 3)).session = some sA ∧
      sA.metrics.turnCount = wMetrics.turnCount + 1 ∧
      sA.currentTurnIndex = 0 + 1 ∧ sA.currentTurn = none :=
  (c2_turn_completeness id SignalTracker.reset "s" "u" "o" 0 wMetrics [] 0 (some "d") true 5
    (by omega) "hi" "ok" "m1" "t0" "t1" false false 1 2 3 5
    wOracle wOracle wOracle wOracle wOracle).1.2

/-! ### C3 — consent resolution never raises -/

/-- C3: `fetchConsentFromService` maps every rejected fetch and every non-2xx
response to `null` (no exception escapes it — its body is one try/catch); and
whenever the service call would yield `null`, `getConsentStatus` still returns
a usable `ConsentStatus` — the config-disabled status, a valid cache hit, or
the tier-based default — and leaves the cache untouched; and over every
configuration, token presence and remote outcome whatsoever, the returned
status is one of the four resolution shapes (disabled, cached, overridden
service answer, default).  (Totality of the embedding reflects that consent
resolution has no throwing path.) -/
theorem c3_consent_never_raises :
    (∀ e, fetchConsentFromService (.netError e) = none) ∧
      (∀ s c, responseOk s = false → fetchConsentFromService (.http s c) = none) ∧
      (∀ (cfg : TelemetryConfig) (authToken : Option String) (cache : ConsentCache)
          (now : Nat) (service : FetchResult ConsentStatus),
        fetchConsentFromService service = none →
          (getConsentStatus cfg authToken cache now service).cache = cache ∧
            ((getConsentStatus cfg authToken cache now service).status
                = ⟨"unknown", .standard, false, .metricsOnly⟩ ∨
              (∃ c, cache.cachedConsent = some c ∧ now < cache.cacheExpiry ∧
                (getConsentStatus cfg authToken cache now service).status = c) ∨
              (getConsentStatus cfg authToken cache now service).status
                = getDefaultConsent cfg "unknown")) ∧
      (∀ (cfg : TelemetryConfig) (authToken : Option String) (cache : ConsentCache)
          (now : Nat) (service : FetchResult ConsentStatus),
        (getConsentStatus cfg authToken cache now service).status
            = ⟨"unknown", .standard, false, .metricsOnly⟩ ∨
          (∃ c, cache.cachedConsent = some c ∧ now < cache.cacheExpiry ∧
            (getConsentStatus cfg authToken cache now service).status = c) ∨
          (∃ sc, fetchConsentFromService service = some sc ∧
            (getConsentStatus cfg authToken cache now service).status
              = applyLocalOverrides cfg sc) ∨
          (getConsentStatus cfg authToken cache now service).status
            = getDefaultConsent cfg "unknown") := by
  refine ⟨fun e => rfl, fun s c h => by simp [fetchConsentFromService, h], ?_, ?_⟩
  intro cfg tok cache now service hfail
  by_cases h1 : cfg.enabled = .explicitFalse
  · exact ⟨by simp [getConsentStatus, h1], Or.inl (by simp [getConsentStatus, h1])⟩
  · cases tok with
    | none =>
      exact ⟨by simp [getConsentStatus, h1],
        Or.inr (Or.inr (by simp [getConsentStatus, h1]))⟩
    | some t =>
      cases hc : cache.cachedConsent with
      | none =>
        exact ⟨by simp [getConsentStatus, h1, hc, hfail],
          Or.inr (Or.inr (by simp [getConsentStatus, h1, hc, hfail]))⟩
      | some c =>
        by_cases hexp : now < cache.cacheExpiry
        · exact ⟨by simp [getConsentStatus, h1, hc, hexp],
            Or.inr (Or.inl ⟨c, rfl, hexp, by simp [getConsentStatus, h1, hc, hexp]⟩)⟩
        · exact ⟨by simp [getConsentStatus, h1, hc, hexp, hfail],
            Or.inr (Or.inr (by simp [getConsentStatus, h1, hc, hexp, hfail]))⟩
  · intro cfg tok cache now service
    by_cases h1 : cfg.enabled = .explicitFalse
    · exact Or.inl (by simp [getConsentStatus, h1])
    · cases tok with
      | none => exact Or.inr (Or.inr (Or.inr (by simp [getConsentStatus, h1])))
      | some t =>
        cases hc : cache.cachedConsent with
        | none =>
          cases hs : fetchConsentFromService service with
          | none =>
            exact Or.inr (Or.inr (Or.inr (by simp [getConsentStatus, h1, hc, hs])))
          | some sc =>
            exact Or.inr (Or.inr (Or.inl ⟨sc, rfl, by simp [getConsentStatus, h1, hc, hs]⟩))
        | some c =>
          by_cases hexp : now < cache.cacheExpiry
          · exact Or.inr (Or.inl ⟨c, rfl, hexp, by simp [getConsentStatus, h1, hc, hexp]⟩)
          · cases hs : fetchConsentFromService service with
            | none =>
              exact Or.inr (Or.inr (Or.inr (by simp [getConsentStatus, h1, hc, hexp, hs])))
            | some sc =>
              exact Or.inr (Or.inr (Or.inl
                ⟨sc, rfl, by simp [getConsentStatus, h1, hc, hexp, hs]⟩))

/-- The configuration used by consent witnesses: nothing set. -/
def wCfg : TelemetryConfig := ⟨.tierDefault, none⟩

/-- C3, witness: with a token, an empty cache and a network-level failure, the
resolution falls back to the tier default and leaves the cache untouched. -/
theorem c3_witness :
    fetchConsentFromService (FetchResult.http 500 ⟨"u", .free, true, .full⟩) = none ∧
      ((getConsentStatus wCfg (some "tok") ⟨none, 0⟩ 0 (.netError true)).cache = ⟨none, 0⟩ ∧
        ((getConsentStatus wCfg (some "tok") ⟨none, 0⟩ 0 (.netError true)).status
            = ⟨"unknown", .standard, false, .metricsOnly⟩ ∨
          (∃ c, (⟨none, 0⟩ : ConsentCache).cachedConsent = some c ∧ 0 < (0 : Nat) ∧
            (getConsentStatus wCfg (some "tok") ⟨none, 0⟩ 0 (.netError true)).status = c) ∨
          (getConsentStatus wCfg (some "tok") ⟨none, 0⟩ 0 (.netError true)).status
            = getDefaultConsent wCfg "unknown")) :=
  ⟨c3_consent_never_raises.2.1 500 ⟨"u", .free, true, .full⟩ rfl,
    c3_consent_never_raises.2.2.1 wCfg (some "tok") ⟨none, 0⟩ 0 (.netError true) rfl⟩

/-! ### C4 — explicit config disable short-circuits -/

/-- C4: when local configuration explicitly disables telemetry,
`getConsentStatus` returns `telemetryEnabled = false` with `dataLevel` forced
to metrics-only (tier assumed `standard`), for every auth token, cache and
service behaviour; the cache is returned untouched and no consent fetch is
attempted (`fetchAttempted = false`) — the check fires before cache and
network are consulted. -/
theorem c4_config_disable_short_circuits (cfg : TelemetryConfig)
    (h : cfg.enabled = .explicitFalse) (authToken : Option String) (cache : ConsentCache)
    (now : Nat) (service : FetchResult ConsentStatus) :
    getConsentStatus cfg authToken cache now service
      = ⟨⟨"unknown", .standard, false, .metricsOnly⟩, cache, false⟩ := by
  simp [getConsentStatus, h]

/-- C4, witness: concrete disabled configuration, with a token, a populated
cache and a service that would answer successfully. -/
theorem c4_witness :
    getConsentStatus ⟨.explicitFalse, some .full⟩ (some "tok")
        ⟨some ⟨"u", .pro, true, .full⟩, 99⟩ 0 (.http 200 ⟨"u", .pro, true, .full⟩)
      = ⟨⟨"unknown", .standard, false, .metricsOnly⟩, ⟨some ⟨"u", .pro, true, .full⟩, 99⟩, false⟩ :=
  c4_config_disable_short_circuits ⟨.explicitFalse, some .full⟩ rfl (some "tok")
    ⟨some ⟨"u", .pro, true, .full⟩, 99⟩ 0 (.http 200 ⟨"u", .pro, true, .full⟩)

/-! ### C7 — truncation -/

/-- C7: content within the limit passes through `truncateContent` unchanged;
longer content becomes its first `maxLength` characters followed by the
marker, so the result length is exactly `maxLength` plus the marker length;
and the marker (which embeds the original length and the first 8 digest
characters) depends only on the content length and the digest of the full
content — identical inputs embed identical hashes. -/
theorem c7_truncateContent (digestHex : String → String) (content : String) (maxLength : Nat) :
    (content.length ≤ maxLength → truncateContent digestHex content maxLength = content) ∧
      (maxLength < content.length →
        truncateContent digestHex content maxLength
            = String.mk (content.data.take maxLength) ++ truncMarker digestHex content ∧
          (truncateContent digestHex content maxLength).length
            = maxLength + (truncMarker digestHex content).length) ∧
      (∀ c₁ c₂ : String, c₁.length = c₂.length → digestHex c₁ = digestHex c₂ →
        truncMarker digestHex c₁ = truncMarker digestHex c₂) := by
  refine ⟨?_, ?_, ?_⟩
  · intro h
    simp [truncateContent, h]
  · intro h
    have hne : ¬ content.length ≤ maxLength := not_le.mpr h
    have heq : truncateContent digestHex content maxLength
        = String.mk (content.data.take maxLength) ++ truncMarker digestHex content := by
      simp [truncateContent, hne]
    have hlen : (String.mk (content.data.take maxLength)).length = maxLength := by
      show (content.data.take maxLength).length = maxLength
      rw [List.length_take]
      have hd : content.data.length = content.length := rfl
      omega
    exact ⟨heq, by rw [heq, String.length_append, hlen]⟩
  · intro c₁ c₂ h1 h2
    simp only [truncMarker, h1, h2]

/-- C7, witness: a five-character string is unchanged under limit 10, and is
cut with the marker appended under limit 3 (with a stand-in digest). -/
theorem c7_witness :
    truncateContent (fun _ => "0123456789abcdef") "hello" 10 = "hello" ∧
      truncateContent (fun _ => "0123456789abcdef") "hello" 3
          = String.mk ("hello".data.take 3) ++ truncMarker (fun _ => "0123456789abcdef") "hello" ∧
        (truncateContent (fun _ => "0123456789abcdef") "hello" 3).length
          = 3 + (truncMarker (fun _ => "0123456789abcdef") "hello").length :=
  ⟨(c7_truncateContent (fun _ => "0123456789abcdef") "hello" 10).1 (by decide),
    (c7_truncateContent (fun _ => "0123456789abcdef") "hello" 3).2.1 (by decide)⟩

/-! ### C9 — `getSignals` final state -/

theorem foldl_addErrorType_ne_nil :
    ∀ (l : List String) (base : List String), base ≠ [] → l.foldl addErrorType base ≠ [] := by
  intro l
  induction l with
  | nil => intro base h; simpa using h
  | cons k rest ih =>
    intro base h
    refine ih (addErrorType base k) ?_
    by_cases hm : k ∈ base
    · simpa [addErrorType, hm] using h
    · simp [addErrorType, hm]

theorem runTrackerFrom_errorTypes (ops : List TrackerOp) :
    ∀ t : SignalTracker,
      (runTrackerFrom t ops).errorTypes = (errorKinds ops).foldl addErrorType t.errorTypes := by
  induction ops with
  | nil => intro t; rfl
  | cons op ops ih =>
    intro t
    have hstep : runTrackerFrom t (op :: ops) = runTrackerFrom (applyTrackerOp t op) ops := rfl
    rw [hstep, ih]
    cases op <;> simp [errorKinds, applyTrackerOp, SignalTracker.startTurn, SignalTracker.endTurn,
      SignalTracker.recordRetry, SignalTracker.recordCompaction, SignalTracker.recordError]

theorem errorKinds_ne_nil_iff (ops : List TrackerOp) :
    (∃ k, TrackerOp.recordError k ∈ ops) ↔ errorKinds ops ≠ [] := by
  constructor
  · rintro ⟨k, hk⟩
    have : k ∈ errorKinds ops := by
      refine List.mem_filterMap.mpr ⟨.recordError k, hk, rfl⟩
    exact List.ne_nil_of_mem this
  · intro h
    obtain ⟨b, hb⟩ := List.exists_mem_of_ne_nil _ h
    obtain ⟨a, ha, hfa⟩ := List.mem_filterMap.mp hb
    cases a with
    | recordError k => exact ⟨k, ha⟩
    | startTurn => simp at hfa
    | endTurn => simp at hfa
    | recordRetry => simp at hfa
    | recordCompaction => simp at hfa

/-- C9: over every tracker history (a list of recorded calls run from a fresh
tracker), the error-kind set accumulates with set semantics (first-occurrence
deduplication of the recorded kinds, in order); and the final state of
`getSignals wasExplicitlyEnded` is `error` whenever any error kind was
recorded — taking precedence over abandonment — else `abandoned` when the
tracker is still mid-turn or the session was not explicitly ended, else
`completed`. -/
theorem c9_getSignals_finalState (ops : List TrackerOp) (w : Bool) :
    (runTracker ops).errorTypes = dedupFirst (errorKinds ops) ∧
      ((∃ k, TrackerOp.recordError k ∈ ops) →
        ((runTracker ops).getSignals w).finalState = .error) ∧
      ((¬ ∃ k, TrackerOp.recordError k ∈ ops) →
        ((runTracker ops).inProgressTurn = true ∨ w = false) →
        ((runTracker ops).getSignals w).finalState = .abandoned) ∧
      ((¬ ∃ k, TrackerOp.recordError k ∈ ops) →
        (runTracker ops).inProgressTurn = false → w = true →
        ((runTracker ops).getSignals w).finalState = .completed) := by
  have htypes : (runTracker ops).errorTypes = dedupFirst (errorKinds ops) :=
    runTrackerFrom_errorTypes ops SignalTracker.reset
  refine ⟨htypes, ?_, ?_, ?_⟩
  · intro hex
    have hne : errorKinds ops ≠ [] := (errorKinds_ne_nil_iff ops).mp hex
    have hne2 : (runTracker ops).errorTypes ≠ [] := by
      rw [htypes]
      cases hk : errorKinds ops with
      | nil => exact absurd hk hne
      | cons k rest =>
        have : dedupFirst (k :: rest) = rest.foldl addErrorType [k] := by
          simp [dedupFirst, addErrorType]
        rw [this]
        exact foldl_addErrorType_ne_nil rest [k] (by simp)
    have hpos : 0 < (runTracker ops).errorTypes.length := List.length_pos.mpr hne2
    simp [SignalTracker.getSignals, SignalTracker.determineFinalState, hpos]
  · intro hex hab
    have hnil : errorKinds ops = [] := by
      by_contra hne
      exact hex ((errorKinds_ne_nil_iff ops).mpr hne)
    have hempty : (runTracker ops).errorTypes = [] := by
      rw [htypes, hnil]; rfl
    rcases hab with hip | hw
    · simp [SignalTracker.getSignals, SignalTracker.determineFinalState,
        SignalTracker.isAbandonedMidTurn, hempty, hip]
    · simp [SignalTracker.getSignals, SignalTracker.determineFinalState,
        SignalTracker.isAbandonedMidTurn, hempty, hw]
  · intro hex hip hw
    have hnil : errorKinds ops = [] := by
      by_contra hne
      exact hex ((errorKinds_ne_nil_iff ops).mpr hne)
    have hempty : (runTracker ops).errorTypes = [] := by
      rw [htypes, hnil]; rfl
    simp [SignalTracker.getSignals, SignalTracker.determineFinalState,
      SignalTracker.isAbandonedMidTurn, hempty, hip, hw]

/-- C9, witness: a history with one recorded error ends in `error` even
mid-turn, and a cleanly closed history ends in `completed`. -/
theorem c9_witness :
    ((runTracker [.startTurn, .recordError "tool_timeout"]).getSignals true).finalState
        = SessionState.error ∧
      ((runTracker [.startTurn, .endTurn]).getSignals true).finalState
        = SessionState.completed :=
  ⟨(c9_getSignals_finalState [.startTurn, .recordError "tool_timeout"] true).2.1
      ⟨"tool_timeout", by decide⟩,
    (c9_getSignals_finalState [.startTurn, .endTurn] true).2.2.2
      (by rintro ⟨k, hk⟩; simp at hk) rfl rfl⟩

/-! ### C8 — redaction idempotence -/

/-- The input refuting idempotence of `redactSecrets`: a 32-character
(non-sensitive) variable name, whose assignment swallows the next line as its
multi-line value, followed by a sensitive assignment on that next line. -/
def c8x : String := String.mk (List.replicate 32 'A') ++ "=\nKEY=vvv"

/-- C8, counterexample: `redactSecrets` is not idempotent.  On `c8x` the env
pass matches at line start with the non-sensitive name `AAA…A` (its `\s*`
crosses the newline, so the value is `KEY=vvv` and nothing is replaced), then
the generic long-token pass redacts the 32-character name itself.  In the
second application the name no longer parses, so the env pass now reaches the
line start of `KEY=vvv`, matches it, and — `KEY` being sensitive — redacts
it: the second output differs from the first. -/
theorem c8_not_idempotent : redactSecrets (redactSecrets c8x) ≠ redactSecrets c8x := by
  decide

/-- C8, amended: `redactSecrets` is not idempotent in general — when a
long (≥ 32 characters) non-sensitive variable name is itself redacted by the
token pass after the env pass has run, a second application can newly redact
an env assignment that the first pass had consumed as a value.  On the
failing input the second application only redacts strictly more (the
swallowed `KEY=vvv`), and it reaches a fixed point: the third application
equals the second. -/
theorem c8_redact_convergence :
    redactSecrets c8x = "[REDACTED]=\nKEY=vvv" ∧
      redactSecrets (redactSecrets c8x) = "[REDACTED]=\nKEY=[REDACTED]" ∧
      redactSecrets (redactSecrets (redactSecrets c8x)) = redactSecrets (redactSecrets c8x) := by
  refine ⟨?_, ?_, ?_⟩ <;> decide

end Telemetry
